import Mathlib

/-!
Verification of the MCP23008 I2C GPIO-expander driver (`src/MCP23008.h`).

The repository ships a single header: the register map, the class layout
(private fields `_bus`, `_deviceAddr`) and every method signature with its
default arguments are taken from that header.  The method bodies are not in
the repository, so each operation's behaviour is modelled from the spec
(sections 4.2-4.5): such definitions carry a doc comment starting
`Modelled from the spec:`.

The bus transport is modelled as a state machine over the chip's registers
plus a log of the bytes written and a fault schedule: each bus primitive
(single-register read or write) consumes one entry of the schedule and fails
with a `TransportError` when that entry is `true`.
-/

/-- The 11 registers of the MCP23008, from `enum class MCP23008Register`
in `src/MCP23008.h` (addresses for IOCON.BANK = 0).  The source's `GPIO`
enumerator is rendered `GPIOreg` here to keep register identities visually
distinct from the lowercase `gpio` byte of the chip model. -/
inductive MCP23008Register : Type
  | IODIR
  | IPOL
  | GPINTEN
  | DEFVAL
  | INTCON
  | IOCON
  | GPPU
  | INTF
  | INTCAP
  | GPIOreg
  | OLAT
deriving DecidableEq

/-- The one-byte address of each register, the values of the
`MCP23008Register` enumeration in `src/MCP23008.h` lines 29-42. -/
def regAddr : MCP23008Register → Nat
  | .IODIR => 0x00
  | .IPOL => 0x01
  | .GPINTEN => 0x02
  | .DEFVAL => 0x03
  | .INTCON => 0x04
  | .IOCON => 0x05
  | .GPPU => 0x06
  | .INTF => 0x07
  | .INTCAP => 0x08
  | .GPIOreg => 0x09
  | .OLAT => 0x0A

/-- The closed enumeration of the 11 registers, in declaration order. -/
def allRegisters : List MCP23008Register :=
  [.IODIR, .IPOL, .GPINTEN, .DEFVAL, .INTCON, .IOCON, .GPPU, .INTF,
   .INTCAP, .GPIOreg, .OLAT]

/-- The live 8-bit value of each register as held on the physical chip
(spec section 3, "Port state"): one byte per register. -/
structure Chip where
  iodir : Nat
  ipol : Nat
  gpinten : Nat
  defval : Nat
  intcon : Nat
  iocon : Nat
  gppu : Nat
  intf : Nat
  intcap : Nat
  gpio : Nat
  olat : Nat
deriving DecidableEq

/-- The byte a register read returns, per register. -/
def chipReadVal (c : Chip) : MCP23008Register → Nat
  | .IODIR => c.iodir
  | .IPOL => c.ipol
  | .GPINTEN => c.gpinten
  | .DEFVAL => c.defval
  | .INTCON => c.intcon
  | .IOCON => c.iocon
  | .GPPU => c.gppu
  | .INTF => c.intf
  | .INTCAP => c.intcap
  | .GPIOreg => c.gpio
  | .OLAT => c.olat

/-- Chip-side effect of a register read: per the datasheet (and spec
section 4.5), reading INTCAP or GPIO clears the latched interrupt
condition; every other read leaves the chip unchanged. -/
def chipReadEff (c : Chip) : MCP23008Register → Chip
  | .GPIOreg => { c with intf := 0 }
  | .INTCAP => { c with intf := 0 }
  | _ => c

/-- Chip-side effect of writing byte `v` to a register.  The byte is
truncated to 8 bits (`uint8_t`).  Per the datasheet, writing GPIO modifies
the output latch OLAT (and conversely the latch drives the port), so a
write to either keeps the two in step. -/
def chipWrite (c : Chip) (r : MCP23008Register) (v : Nat) : Chip :=
  let b := v % 256
  match r with
  | .IODIR => { c with iodir := b }
  | .IPOL => { c with ipol := b }
  | .GPINTEN => { c with gpinten := b }
  | .DEFVAL => { c with defval := b }
  | .INTCON => { c with intcon := b }
  | .IOCON => { c with iocon := b }
  | .GPPU => { c with gppu := b }
  | .INTF => { c with intf := b }
  | .INTCAP => { c with intcap := b }
  | .GPIOreg => { c with gpio := b, olat := b }
  | .OLAT => { c with olat := b, gpio := b }

/-- The error taxonomy of the spec (section 7): exactly one kind,
`TransportError`, raised by the bus transport. -/
inductive TransportError : Type
  | busError
deriving DecidableEq

/-- State threaded through every bus operation: the chip's registers, the
log of bytes written on the bus (device address, register address, byte),
and the fault schedule (`true` = the next bus primitive fails). -/
structure BusState where
  chip : Chip
  sent : List (Nat × Nat × Nat)
  faults : List Bool
deriving DecidableEq

/-- Pop the next fault-schedule entry; an exhausted schedule means the
primitive succeeds. -/
def popFault : List Bool → Bool × List Bool
  | [] => (false, [])
  | b :: rest => (b, rest)

/-- A bus computation: returns a result or a `TransportError`, together
with the bus state it leaves behind. -/
def BusM (α : Type) : Type := BusState → Except TransportError α × BusState

/-- Bus primitive `readBytes(deviceAddress, registerAddress, 1)` (spec
section 6): reads one register byte or fails with a transport error. -/
def readReg (dev : Nat) (r : MCP23008Register) : BusM Nat := fun s =>
  let p := popFault s.faults
  if p.1 then
    (.error .busError, { s with faults := p.2 })
  else
    (.ok (chipReadVal s.chip r),
     { s with chip := chipReadEff s.chip r, faults := p.2 })

/-- Bus primitive `writeBytes(deviceAddress, registerAddress, [v])` (spec
section 6): writes one register byte or fails with a transport error; a
failed write sends no byte (nothing is appended to the log). -/
def writeReg (dev : Nat) (r : MCP23008Register) (v : Nat) : BusM Unit := fun s =>
  let p := popFault s.faults
  if p.1 then
    (.error .busError, { s with faults := p.2 })
  else
    (.ok (),
     { s with chip := chipWrite s.chip r v,
              sent := s.sent ++ [(dev, regAddr r, v % 256)],
              faults := p.2 })

/-- The driver object: its only fields are the bus handle and the device
address, from the private section of `class MCP23008` in `src/MCP23008.h`
lines 46-48 (`TwoWire* _bus; uint8_t _deviceAddr;`).  The bus handle is
represented by an opaque-to-the-driver numeric identifier. -/
structure MCP23008 where
  busHandle : Nat
  deviceAddr : Nat

/-- The default I2C address, `#define MCP23008_I2C_ADDRESS 0x20`. -/
def MCP23008_I2C_ADDRESS : Nat := 0x20

/-- Set bit `pin` of byte `v` (C `v |= 1 << pin`). -/
def setBit (v pin : Nat) : Nat := v ||| (1 <<< pin)

/-- Clear bit `pin` of byte `v` (C `v &= ~(1 << pin)` at 8 bits). -/
def clearBit (v pin : Nat) : Nat := v &&& (255 ^^^ (1 <<< pin))

/-- Set bit `pin` of byte `v` to `b`. -/
def assignBit (v pin : Nat) (b : Bool) : Nat :=
  if b then setBit v pin else clearBit v pin

/-- The pin mode argument of `pinMode`: `[ OUTPUT | INPUT | INPUT_PULLUP ]`
per the `src/MCP23008.h` line 102 comment. -/
inductive PinModeArg : Type
  | output
  | input
  | inputPullup
deriving DecidableEq

/-- The IODIR bit a mode maps to before inversion: 1 = input (the chip's
native polarity, spec section 4.3). -/
def modeBit : PinModeArg → Bool
  | .output => false
  | .input => true
  | .inputPullup => true

/-- Modelled from the spec: the body of `MCP23008::writeRegister` is not in
`src/` (the header declares it only).  Spec: writes a single register
value, one bus write. -/
def writeRegister (d : MCP23008) (r : MCP23008Register) (v : Nat) : BusM Unit :=
  writeReg d.deviceAddr r v

/-- Modelled from the spec: the body of `MCP23008::readRegister` is not in
`src/`.  Spec: reads a single register value, one bus read. -/
def readRegister (d : MCP23008) (r : MCP23008Register) : BusM Nat :=
  readReg d.deviceAddr r

/-- Modelled from the spec: the body of `MCP23008::portMode` is not in
`src/`.  Spec section 4.3: writes IODIR, GPPU and IPOL in one call, each as
a raw 8-bit mask applied to the whole port in a single bus write, no
read-modify-write. -/
def portMode (d : MCP23008) (directions pullups inverted : Nat) : BusM Unit := fun s =>
  match writeReg d.deviceAddr .IODIR directions s with
  | (.error e, s1) => (.error e, s1)
  | (.ok _, s1) =>
    match writeReg d.deviceAddr .GPPU pullups s1 with
    | (.error e, s2) => (.error e, s2)
    | (.ok _, s2) => writeReg d.deviceAddr .IPOL inverted s2

/-- `portMode` with the optional arguments omitted: the defaults
`pullups = 0xFF, inverted = 0x00` come from the declaration
`void portMode(uint8_t directions, uint8_t pullups = 0xFF, uint8_t
inverted = 0x00)` in `src/MCP23008.h` line 88. -/
def portModeDefaults (d : MCP23008) (directions : Nat) : BusM Unit :=
  portMode d directions 0xFF 0x00

/-- Modelled from the spec: the body of `MCP23008::pinMode` is not in
`src/`.  Spec section 4.3: read-modify-write on IODIR (output clears the
bit, input and input-with-pullup set it) and on GPPU (set only for
input-with-pullup); the `inverted` flag is a pure bit-flip applied to the
mode value before it is written, touching only the mode-to-IODIR-bit
mapping. -/
def pinMode (d : MCP23008) (pin : Nat) (mode : PinModeArg) (inverted : Bool) :
    BusM Unit := fun s =>
  match readReg d.deviceAddr .IODIR s with
  | (.error e, s1) => (.error e, s1)
  | (.ok iodir, s1) =>
    match writeReg d.deviceAddr .IODIR
        (assignBit iodir pin (xor (modeBit mode) inverted)) s1 with
    | (.error e, s2) => (.error e, s2)
    | (.ok _, s2) =>
      match readReg d.deviceAddr .GPPU s2 with
      | (.error e, s3) => (.error e, s3)
      | (.ok gppu, s3) =>
        writeReg d.deviceAddr .GPPU
          (assignBit gppu pin (mode = PinModeArg.inputPullup)) s3

/-- `pinMode` with the optional argument omitted: the default
`inverted = false` comes from the declaration `void pinMode(uint8_t pin,
uint8_t mode, bool inverted = false)` in `src/MCP23008.h` line 104. -/
def pinModeDefaults (d : MCP23008) (pin : Nat) (mode : PinModeArg) : BusM Unit :=
  pinMode d pin mode false

/-- Modelled from the spec: the body of `MCP23008::digitalWrite` is not in
`src/`.  Spec section 4.4: read GPIO, set/clear the target bit, write the
byte back to GPIO - a read-modify-write so that other output pins are not
disturbed. -/
def digitalWrite (d : MCP23008) (pin state : Nat) : BusM Unit := fun s =>
  match readReg d.deviceAddr .GPIOreg s with
  | (.error e, s1) => (.error e, s1)
  | (.ok gpio, s1) =>
    writeReg d.deviceAddr .GPIOreg (assignBit gpio pin (state != 0)) s1

/-- Modelled from the spec: the body of `MCP23008::digitalRead` is not in
`src/`.  Spec section 4.4: read the GPIO byte, extract the target bit,
return 0/1. -/
def digitalRead (d : MCP23008) (pin : Nat) : BusM Nat := fun s =>
  match readReg d.deviceAddr .GPIOreg s with
  | (.error e, s1) => (.error e, s1)
  | (.ok gpio, s1) => (.ok ((gpio >>> pin) &&& 1), s1)

/-- Modelled from the spec: the body of `MCP23008::writePort` is not in
`src/`.  Spec section 4.4: whole-byte write of GPIO with no masking,
direct pass-through to the bus transport. -/
def writePort (d : MCP23008) (value : Nat) : BusM Unit :=
  writeReg d.deviceAddr .GPIOreg value

/-- Modelled from the spec: the body of `MCP23008::readPort` is not in
`src/`.  Spec section 4.4: whole-byte read of GPIO with no masking. -/
def readPort (d : MCP23008) : BusM Nat :=
  readReg d.deviceAddr .GPIOreg

/-- The interrupt trigger modes accepted by `interrupt` (`src/MCP23008.h`
line 160: "mode can be one of CHANGE, FALLING or RISING"). -/
inductive IntMode : Type
  | change
  | falling
  | rising
deriving DecidableEq

/-- Modelled from the spec: the body of `MCP23008::interrupt` is not in
`src/`.  Spec sections 3 and 4.5: configured once per desired pin;
(a) INTCON bit cleared for Change mode (compare against previous value),
set for Rising/Falling (compare against DEFVAL); (b) for Rising/Falling
the DEFVAL bit is set to the logic level that should NOT trigger (0 for
Rising, 1 for Falling); (c) the GPINTEN bit is set to arm.  Each register
update is a read-modify-write preserving the other pins' bits. -/
def interrupt (d : MCP23008) (pin : Nat) (mode : IntMode) : BusM Unit := fun s =>
  match readReg d.deviceAddr .INTCON s with
  | (.error e, s1) => (.error e, s1)
  | (.ok intcon, s1) =>
    match writeReg d.deviceAddr .INTCON
        (assignBit intcon pin (mode != IntMode.change)) s1 with
    | (.error e, s2) => (.error e, s2)
    | (.ok _, s2) =>
      let afterDefval : Except TransportError Unit × BusState :=
        match mode with
        | .change => (.ok (), s2)
        | .rising =>
          match readReg d.deviceAddr .DEFVAL s2 with
          | (.error e, s3) => (.error e, s3)
          | (.ok defval, s3) =>
            writeReg d.deviceAddr .DEFVAL (assignBit defval pin false) s3
        | .falling =>
          match readReg d.deviceAddr .DEFVAL s2 with
          | (.error e, s3) => (.error e, s3)
          | (.ok defval, s3) =>
            writeReg d.deviceAddr .DEFVAL (assignBit defval pin true) s3
      match afterDefval with
      | (.error e, s4) => (.error e, s4)
      | (.ok _, s4) =>
        match readReg d.deviceAddr .GPINTEN s4 with
        | (.error e, s5) => (.error e, s5)
        | (.ok gpinten, s5) =>
          writeReg d.deviceAddr .GPINTEN (assignBit gpinten pin true) s5

/-- Modelled from the spec: the body of `MCP23008::disableInterrupt` is not
in `src/`.  Spec section 4.5: the whole-port variant clears all bits -
write 0x00 to GPINTEN. -/
def disableInterrupt (d : MCP23008) : BusM Unit :=
  writeReg d.deviceAddr .GPINTEN 0x00

/-- Modelled from the spec: the body of `MCP23008::interruptedBy` is not in
`src/`.  Spec section 4.5: a single read of INTF, returning the raw byte;
does not clear the condition. -/
def interruptedBy (d : MCP23008) : BusM Nat :=
  readReg d.deviceAddr .INTF

/-- Modelled from the spec: the body of `MCP23008::clearInterrupts` is not
in `src/`.  Spec section 4.5: a single read of INTCAP (which clears the
latched interrupt condition on the chip); returns the captured port
value. -/
def clearInterrupts (d : MCP23008) : BusM Nat :=
  readReg d.deviceAddr .INTCAP

/-- Modelled from the spec: the body of `MCP23008::init` is not in `src/`.
Spec section 4.2 / header lines 72-79: initializes the chip with the
default configuration - enables Byte mode by setting IOCON.SEQOP
(IOCON.BANK = 0, SEQOP = bit 5, so the byte 0x20) and writes GPPU = 0xFF
to enable pull-ups on all pins: two whole-byte bus writes. -/
def init (d : MCP23008) : BusM Unit := fun s =>
  match writeReg d.deviceAddr .IOCON 0x20 s with
  | (.error e, s1) => (.error e, s1)
  | (.ok _, s1) => writeReg d.deviceAddr .GPPU 0xFF s1

/-- Modelled from the spec: the body of `MCP23008::begin` is not in `src/`.
Header line 64: uses the I2C address set during construction and
implicitly calls `init()`. -/
def begin (d : MCP23008) : BusM Unit := init d

/-- A driver instance at the default I2C address. -/
def devA : MCP23008 := ⟨0, MCP23008_I2C_ADDRESS⟩

/-- A chip with every register at its power-on value 0x00. -/
def chipZero : Chip := ⟨0, 0, 0, 0, 0, 0, 0, 0, 0, 0, 0⟩

/-- A chip whose port and output latch hold 0x55 (alternating bits). -/
def chipA : Chip := ⟨0, 0, 0, 0, 0, 0, 0, 0, 0, 0x55, 0x55⟩

/-! ### Bit-manipulation lemmas -/

theorem testBit_setBit_self (v pin : Nat) : (setBit v pin).testBit pin = true := by
  simp [setBit, Nat.one_shiftLeft, Nat.testBit_two_pow_self]

theorem testBit_setBit_of_ne (v pin q : Nat) (h : q ≠ pin) :
    (setBit v pin).testBit q = v.testBit q := by
  simp [setBit, Nat.one_shiftLeft, Nat.testBit_two_pow_of_ne (Ne.symm h)]

theorem testBit_255 (q : Nat) : (255 : Nat).testBit q = decide (q < 8) := by
  rw [show (255 : Nat) = 2 ^ 8 - 1 from rfl, Nat.testBit_two_pow_sub_one]

theorem testBit_clearBit_self (v pin : Nat) (h : pin < 8) :
    (clearBit v pin).testBit pin = false := by
  simp [clearBit, Nat.one_shiftLeft, testBit_255, Nat.testBit_two_pow_self, h]

theorem testBit_clearBit_of_ne (v pin q : Nat) (hq : q < 8) (h : q ≠ pin) :
    (clearBit v pin).testBit q = v.testBit q := by
  simp [clearBit, Nat.one_shiftLeft, testBit_255,
        Nat.testBit_two_pow_of_ne (Ne.symm h), hq]

theorem testBit_assignBit_self (v pin : Nat) (b : Bool) (h : pin < 8) :
    (assignBit v pin b).testBit pin = b := by
  cases b <;> simp [assignBit, testBit_setBit_self, testBit_clearBit_self _ _ h]

theorem testBit_assignBit_of_ne (v pin q : Nat) (b : Bool) (hq : q < 8) (h : q ≠ pin) :
    (assignBit v pin b).testBit q = v.testBit q := by
  cases b <;> simp [assignBit, testBit_setBit_of_ne _ _ _ h, testBit_clearBit_of_ne _ _ _ hq h]

theorem testBit_mod256 (x q : Nat) (hq : q < 8) : (x % 256).testBit q = x.testBit q := by
  rw [show (256 : Nat) = 2 ^ 8 from rfl, Nat.testBit_mod_two_pow]
  simp [hq]

theorem extractBit_eq (v pin : Nat) :
    (v >>> pin) &&& 1 = if v.testBit pin then 1 else 0 := by
  rw [Nat.and_one_is_mod, Nat.testBit_to_div_mod, Nat.shiftRight_eq_div_pow]
  rcases Nat.mod_two_eq_zero_or_one (v / 2 ^ pin) with h | h <;> simp [h]

/-! ### Fault-free runs of the operations -/

theorem pinMode_run (d : MCP23008) (pin : Nat) (mode : PinModeArg) (inv : Bool)
    (c : Chip) (l : List (Nat × Nat × Nat)) :
    pinMode d pin mode inv ⟨c, l, []⟩ =
      (.ok (),
       ⟨{ c with iodir := assignBit c.iodir pin (xor (modeBit mode) inv) % 256,
                 gppu := assignBit c.gppu pin (decide (mode = PinModeArg.inputPullup)) % 256 },
        (l ++ [(d.deviceAddr, 0x00, assignBit c.iodir pin (xor (modeBit mode) inv) % 256)]) ++
          [(d.deviceAddr, 0x06,
            assignBit c.gppu pin (decide (mode = PinModeArg.inputPullup)) % 256)],
        []⟩) := rfl

theorem digitalWrite_run (d : MCP23008) (pin st : Nat) (c : Chip)
    (l : List (Nat × Nat × Nat)) :
    digitalWrite d pin st ⟨c, l, []⟩ =
      (.ok (),
       ⟨{ c with intf := 0, gpio := assignBit c.gpio pin (st != 0) % 256,
                 olat := assignBit c.gpio pin (st != 0) % 256 },
        l ++ [(d.deviceAddr, 0x09, assignBit c.gpio pin (st != 0) % 256)], []⟩) := rfl

theorem portMode_run (d : MCP23008) (dirs pulls inv : Nat) (c : Chip)
    (l : List (Nat × Nat × Nat)) :
    portMode d dirs pulls inv ⟨c, l, []⟩ =
      (.ok (),
       ⟨{ c with iodir := dirs % 256, gppu := pulls % 256, ipol := inv % 256 },
        ((l ++ [(d.deviceAddr, 0x00, dirs % 256)]) ++ [(d.deviceAddr, 0x06, pulls % 256)]) ++
          [(d.deviceAddr, 0x01, inv % 256)],
        []⟩) := rfl

theorem interrupt_change_run (d : MCP23008) (pin : Nat) (c : Chip)
    (l : List (Nat × Nat × Nat)) :
    interrupt d pin .change ⟨c, l, []⟩ =
      (.ok (),
       ⟨{ c with intcon := assignBit c.intcon pin false % 256,
                 gpinten := assignBit c.gpinten pin true % 256 },
        (l ++ [(d.deviceAddr, 0x04, assignBit c.intcon pin false % 256)]) ++
          [(d.deviceAddr, 0x02, assignBit c.gpinten pin true % 256)],
        []⟩) := rfl

theorem interrupt_rising_run (d : MCP23008) (pin : Nat) (c : Chip)
    (l : List (Nat × Nat × Nat)) :
    interrupt d pin .rising ⟨c, l, []⟩ =
      (.ok (),
       ⟨{ c with intcon := assignBit c.intcon pin true % 256,
                 defval := assignBit c.defval pin false % 256,
                 gpinten := assignBit c.gpinten pin true % 256 },
        ((l ++ [(d.deviceAddr, 0x04, assignBit c.intcon pin true % 256)]) ++
           [(d.deviceAddr, 0x03, assignBit c.defval pin false % 256)]) ++
          [(d.deviceAddr, 0x02, assignBit c.gpinten pin true % 256)],
        []⟩) := rfl

theorem interrupt_falling_run (d : MCP23008) (pin : Nat) (c : Chip)
    (l : List (Nat × Nat × Nat)) :
    interrupt d pin .falling ⟨c, l, []⟩ =
      (.ok (),
       ⟨{ c with intcon := assignBit c.intcon pin true % 256,
                 defval := assignBit c.defval pin true % 256,
                 gpinten := assignBit c.gpinten pin true % 256 },
        ((l ++ [(d.deviceAddr, 0x04, assignBit c.intcon pin true % 256)]) ++
           [(d.deviceAddr, 0x03, assignBit c.defval pin true % 256)]) ++
          [(d.deviceAddr, 0x02, assignBit c.gpinten pin true % 256)],
        []⟩) := rfl

/-! ### Claims -/

/-- Claim C1: the register map assigns to each of the 11 named registers
exactly the fixed one-byte address IODIR=0x00, IPOL=0x01, GPINTEN=0x02,
DEFVAL=0x03, INTCON=0x04, IOCON=0x05, GPPU=0x06, INTF=0x07, INTCAP=0x08,
GPIO=0x09, OLAT=0x0A; the addresses are the 11 contiguous values 0x00-0x0A
and no two register names share an address (the address lookup is a total
injective function over the closed enumeration). -/
theorem register_map_addresses :
    regAddr .IODIR = 0x00 ∧ regAddr .IPOL = 0x01 ∧ regAddr .GPINTEN = 0x02 ∧
    regAddr .DEFVAL = 0x03 ∧ regAddr .INTCON = 0x04 ∧ regAddr .IOCON = 0x05 ∧
    regAddr .GPPU = 0x06 ∧ regAddr .INTF = 0x07 ∧ regAddr .INTCAP = 0x08 ∧
    regAddr .GPIOreg = 0x09 ∧ regAddr .OLAT = 0x0A ∧
    (∀ r : MCP23008Register, r ∈ allRegisters) ∧
    allRegisters.map regAddr =
      [0x00, 0x01, 0x02, 0x03, 0x04, 0x05, 0x06, 0x07, 0x08, 0x09, 0x0A] ∧
    (allRegisters.map regAddr).Nodup := by
  refine ⟨rfl, rfl, rfl, rfl, rfl, rfl, rfl, rfl, rfl, rfl, rfl, ?_, rfl, by decide⟩
  intro r
  cases r <;> simp [allRegisters]

/-- Claim C6: `portMode(directions, pullups, inverted)` performs exactly
three whole-byte bus writes - the raw masks to IODIR, GPPU and IPOL - with
no read and no read-modify-write, and `portMode(0xFF, 0xFF, 0)` followed by
reading back IODIR and GPPU yields 0xFF for both. -/
theorem portMode_whole_byte (d : MCP23008) (dirs pulls inv : Nat) (c : Chip)
    (l : List (Nat × Nat × Nat)) :
    portMode d dirs pulls inv ⟨c, l, []⟩ =
      (.ok (),
       ⟨{ c with iodir := dirs % 256, gppu := pulls % 256, ipol := inv % 256 },
        ((l ++ [(d.deviceAddr, 0x00, dirs % 256)]) ++ [(d.deviceAddr, 0x06, pulls % 256)]) ++
          [(d.deviceAddr, 0x01, inv % 256)],
        []⟩) ∧
    (readRegister d .IODIR (portMode d 0xFF 0xFF 0x00 ⟨c, l, []⟩).2).1 = .ok 0xFF ∧
    (readRegister d .GPPU (portMode d 0xFF 0xFF 0x00 ⟨c, l, []⟩).2).1 = .ok 0xFF :=
  ⟨portMode_run d dirs pulls inv c l, rfl, rfl⟩

/-- Claim C8: `interruptedBy()` is a single read of INTF that returns the
raw byte and leaves the chip state (including the latched condition)
completely unchanged, sending no bytes; `clearInterrupts()` is a single
read of INTCAP that returns the port value captured at interrupt time and
clears the latched interrupt condition. -/
theorem interrupt_status_reads (d : MCP23008) (c : Chip)
    (l : List (Nat × Nat × Nat)) :
    interruptedBy d ⟨c, l, []⟩ = (.ok c.intf, ⟨c, l, []⟩) ∧
    clearInterrupts d ⟨c, l, []⟩ = (.ok c.intcap, ⟨{ c with intf := 0 }, l, []⟩) :=
  ⟨rfl, rfl⟩

/-- Claim C9: the driver holds no cached register copy - its record carries
only the bus handle and device address - so reads re-fetch from the chip:
a change made to the chip's GPIO register after `writePort`/`digitalWrite`
is what `readPort`/`digitalRead` return, not the last-written value. -/
theorem no_cached_register_state (d : MCP23008) (v w : Nat) (c : Chip)
    (l : List (Nat × Nat × Nat)) :
    (∀ dd : MCP23008, dd = ⟨dd.busHandle, dd.deviceAddr⟩) ∧
    (readPort d ⟨{ (writePort d v ⟨c, l, []⟩).2.chip with gpio := w % 256 },
                 (writePort d v ⟨c, l, []⟩).2.sent, []⟩).1 = .ok (w % 256) ∧
    (digitalRead d 0 ⟨{ (digitalWrite d 0 1 ⟨c, l, []⟩).2.chip with gpio := w % 256 },
                     (digitalWrite d 0 1 ⟨c, l, []⟩).2.sent, []⟩).1
      = .ok (((w % 256) >>> 0) &&& 1) :=
  ⟨fun _ => rfl, rfl, rfl⟩

/-- Claim C10: omitted optional arguments complete as declared in the
header: `portMode(directions)` equals `portMode(directions, 0xFF, 0x00)` -
pull-ups enabled for all pins and no polarity inversion by default - and
`pinMode(pin, mode)` equals `pinMode(pin, mode, false)`. -/
theorem default_argument_completion (d : MCP23008) (dirs pin : Nat)
    (mode : PinModeArg) (s : BusState) (c : Chip) (l : List (Nat × Nat × Nat)) :
    portModeDefaults d dirs s = portMode d dirs 0xFF 0x00 s ∧
    pinModeDefaults d pin mode s = pinMode d pin mode false s ∧
    ((portModeDefaults d dirs ⟨c, l, []⟩).2).chip.gppu = 0xFF ∧
    ((portModeDefaults d dirs ⟨c, l, []⟩).2).chip.ipol = 0x00 :=
  ⟨rfl, rfl, rfl, rfl⟩

/-- Claim C2: for any pin, after `pinMode(pin, output)` then
`digitalWrite(pin, 1)`, `digitalRead(pin)` returns 1, and the
read-modify-write on the port preserves every sibling bit: for q ≠ pin the
OLAT and GPIO bits of q keep their prior values (with the output latch in
step with the port, olat = gpio, beforehand). -/
theorem output_write_then_read (d : MCP23008) (pin : Nat) (c : Chip)
    (l : List (Nat × Nat × Nat)) (hpin : pin < 8) (holat : c.olat = c.gpio) :
    (digitalRead d pin
       (digitalWrite d pin 1 (pinMode d pin .output false ⟨c, l, []⟩).2).2).1 = .ok 1 ∧
    ∀ q, q < 8 → q ≠ pin →
      (digitalWrite d pin 1 (pinMode d pin .output false ⟨c, l, []⟩).2).2.chip.olat.testBit q
        = c.olat.testBit q ∧
      (digitalWrite d pin 1 (pinMode d pin .output false ⟨c, l, []⟩).2).2.chip.gpio.testBit q
        = c.gpio.testBit q := by
  have hread : (digitalRead d pin
      (digitalWrite d pin 1 (pinMode d pin .output false ⟨c, l, []⟩).2).2).1
      = .ok (((assignBit c.gpio pin true % 256) >>> pin) &&& 1) := rfl
  have holatW : (digitalWrite d pin 1
      (pinMode d pin .output false ⟨c, l, []⟩).2).2.chip.olat
      = assignBit c.gpio pin true % 256 := rfl
  have hgpioW : (digitalWrite d pin 1
      (pinMode d pin .output false ⟨c, l, []⟩).2).2.chip.gpio
      = assignBit c.gpio pin true % 256 := rfl
  constructor
  · rw [hread, extractBit_eq, testBit_mod256 _ _ hpin, testBit_assignBit_self _ _ _ hpin]
    simp
  · intro q hq hne
    rw [holatW, hgpioW, testBit_mod256 _ _ hq, testBit_assignBit_of_ne _ _ _ _ hq hne, holat]
    exact ⟨rfl, rfl⟩

theorem output_write_then_read_witness :
    3 < 8 ∧ chipA.olat = chipA.gpio ∧
    ((digitalRead devA 3
        (digitalWrite devA 3 1 (pinMode devA 3 .output false ⟨chipA, [], []⟩).2).2).1 = .ok 1 ∧
     ∀ q, q < 8 → q ≠ 3 →
       (digitalWrite devA 3 1
           (pinMode devA 3 .output false ⟨chipA, [], []⟩).2).2.chip.olat.testBit q
         = chipA.olat.testBit q ∧
       (digitalWrite devA 3 1
           (pinMode devA 3 .output false ⟨chipA, [], []⟩).2).2.chip.gpio.testBit q
         = chipA.gpio.testBit q) :=
  ⟨by decide, rfl, output_write_then_read devA 3 chipA [] (by decide) rfl⟩

/-- Claim C5: for the same pin and mode, `pinMode(pin, mode, true)` and
`pinMode(pin, mode, false)` produce opposite IODIR bit values for that pin,
and the inverted flag changes nothing else: sibling IODIR bits agree and
the two resulting chips coincide on every register once the IODIR byte is
set aside - the flag is a pure flip of the mode bit before it is
written. -/
theorem pinMode_inverted_flip (d : MCP23008) (pin : Nat) (mode : PinModeArg)
    (c : Chip) (l : List (Nat × Nat × Nat)) (hpin : pin < 8) :
    ((pinMode d pin mode true ⟨c, l, []⟩).2.chip.iodir.testBit pin
       = !((pinMode d pin mode false ⟨c, l, []⟩).2.chip.iodir.testBit pin)) ∧
    (∀ q, q < 8 → q ≠ pin →
       (pinMode d pin mode true ⟨c, l, []⟩).2.chip.iodir.testBit q
         = (pinMode d pin mode false ⟨c, l, []⟩).2.chip.iodir.testBit q) ∧
    { (pinMode d pin mode true ⟨c, l, []⟩).2.chip with
        iodir := (pinMode d pin mode false ⟨c, l, []⟩).2.chip.iodir }
      = (pinMode d pin mode false ⟨c, l, []⟩).2.chip := by
  have hT : (pinMode d pin mode true ⟨c, l, []⟩).2.chip.iodir
      = assignBit c.iodir pin (xor (modeBit mode) true) % 256 := rfl
  have hF : (pinMode d pin mode false ⟨c, l, []⟩).2.chip.iodir
      = assignBit c.iodir pin (xor (modeBit mode) false) % 256 := rfl
  refine ⟨?_, ?_, rfl⟩
  · rw [hT, hF, testBit_mod256 _ _ hpin, testBit_mod256 _ _ hpin,
        testBit_assignBit_self _ _ _ hpin, testBit_assignBit_self _ _ _ hpin]
    cases modeBit mode <;> rfl
  · intro q hq hne
    rw [hT, hF, testBit_mod256 _ _ hq, testBit_mod256 _ _ hq,
        testBit_assignBit_of_ne _ _ _ _ hq hne, testBit_assignBit_of_ne _ _ _ _ hq hne]

theorem pinMode_inverted_flip_witness :
    5 < 8 ∧
    (((pinMode devA 5 .input true ⟨chipZero, [], []⟩).2.chip.iodir.testBit 5
        = !((pinMode devA 5 .input false ⟨chipZero, [], []⟩).2.chip.iodir.testBit 5)) ∧
     (∀ q, q < 8 → q ≠ 5 →
        (pinMode devA 5 .input true ⟨chipZero, [], []⟩).2.chip.iodir.testBit q
          = (pinMode devA 5 .input false ⟨chipZero, [], []⟩).2.chip.iodir.testBit q) ∧
     { (pinMode devA 5 .input true ⟨chipZero, [], []⟩).2.chip with
         iodir := (pinMode devA 5 .input false ⟨chipZero, [], []⟩).2.chip.iodir }
       = (pinMode devA 5 .input false ⟨chipZero, [], []⟩).2.chip) :=
  ⟨by decide, pinMode_inverted_flip devA 5 .input chipZero [] (by decide)⟩

/-- Claim C7: with every pin an output and no polarity inversion,
`writePort(v)` then `readPort()` returns v for any v in 0-255; `writePort`
is a single unmasked whole-byte GPIO write and `readPort` a single
unmasked whole-byte GPIO read, both direct pass-throughs to the bus. -/
theorem writePort_readPort_roundtrip (d : MCP23008) (v : Nat) (c : Chip)
    (l : List (Nat × Nat × Nat)) (hv : v < 256) (hio : c.iodir = 0)
    (hpol : c.ipol = 0) :
    (readPort d (writePort d v ⟨c, l, []⟩).2).1 = .ok v ∧
    writePort d v ⟨c, l, []⟩ =
      (.ok (), ⟨{ c with gpio := v % 256, olat := v % 256 },
                l ++ [(d.deviceAddr, 0x09, v % 256)], []⟩) ∧
    (readPort d ⟨c, l, []⟩).1 = .ok c.gpio := by
  refine ⟨?_, rfl, rfl⟩
  show Except.ok (v % 256) = Except.ok v
  rw [Nat.mod_eq_of_lt hv]

theorem writePort_readPort_roundtrip_witness :
    0xA5 < 256 ∧ chipZero.iodir = 0 ∧ chipZero.ipol = 0 ∧
    ((readPort devA (writePort devA 0xA5 ⟨chipZero, [], []⟩).2).1 = .ok 0xA5 ∧
     writePort devA 0xA5 ⟨chipZero, [], []⟩ =
       (.ok (), ⟨{ chipZero with gpio := 0xA5 % 256, olat := 0xA5 % 256 },
                 [] ++ [(devA.deviceAddr, 0x09, 0xA5 % 256)], []⟩) ∧
     (readPort devA ⟨chipZero, [], []⟩).1 = .ok chipZero.gpio) :=
  ⟨by decide, rfl, rfl,
   writePort_readPort_roundtrip devA 0xA5 chipZero [] (by decide) rfl rfl⟩

/-- Claim C3: `interrupt` encodes the trigger mode into the three
interrupt-control registers: Change clears the pin's INTCON bit (compare
against previous GPIO value) and leaves DEFVAL untouched, Rising and
Falling set the pin's INTCON bit and set the pin's DEFVAL bit to the level
that should NOT trigger (0 for Rising, 1 for Falling), in every mode the
pin's GPINTEN bit is set to arm, and every register update is a
read-modify-write preserving all other pins' bits in INTCON, DEFVAL and
GPINTEN. -/
theorem interrupt_mode_encoding (d : MCP23008) (pin : Nat) (mode : IntMode)
    (c : Chip) (l : List (Nat × Nat × Nat)) (hpin : pin < 8) :
    (interrupt d pin mode ⟨c, l, []⟩).1 = .ok () ∧
    (interrupt d pin mode ⟨c, l, []⟩).2.chip.gpinten.testBit pin = true ∧
    (interrupt d pin mode ⟨c, l, []⟩).2.chip.intcon.testBit pin
      = (mode != IntMode.change) ∧
    (mode = IntMode.change →
      (interrupt d pin mode ⟨c, l, []⟩).2.chip.defval = c.defval) ∧
    (mode = IntMode.rising →
      (interrupt d pin mode ⟨c, l, []⟩).2.chip.defval.testBit pin = false) ∧
    (mode = IntMode.falling →
      (interrupt d pin mode ⟨c, l, []⟩).2.chip.defval.testBit pin = true) ∧
    (∀ q, q < 8 → q ≠ pin →
      (interrupt d pin mode ⟨c, l, []⟩).2.chip.intcon.testBit q = c.intcon.testBit q ∧
      (interrupt d pin mode ⟨c, l, []⟩).2.chip.defval.testBit q = c.defval.testBit q ∧
      (interrupt d pin mode ⟨c, l, []⟩).2.chip.gpinten.testBit q
        = c.gpinten.testBit q) := by
  cases mode
  case change =>
    have hg : (interrupt d pin IntMode.change ⟨c, l, []⟩).2.chip.gpinten
        = assignBit c.gpinten pin true % 256 := rfl
    have hi : (interrupt d pin IntMode.change ⟨c, l, []⟩).2.chip.intcon
        = assignBit c.intcon pin false % 256 := rfl
    have hd : (interrupt d pin IntMode.change ⟨c, l, []⟩).2.chip.defval = c.defval := rfl
    refine ⟨rfl, ?_, ?_, fun _ => hd, fun h => IntMode.noConfusion h,
            fun h => IntMode.noConfusion h, ?_⟩
    · rw [hg, testBit_mod256 _ _ hpin, testBit_assignBit_self _ _ _ hpin]
    · rw [hi, testBit_mod256 _ _ hpin, testBit_assignBit_self _ _ _ hpin]
      decide
    · intro q hq hne
      exact ⟨by rw [hi, testBit_mod256 _ _ hq, testBit_assignBit_of_ne _ _ _ _ hq hne],
             by rw [hd],
             by rw [hg, testBit_mod256 _ _ hq, testBit_assignBit_of_ne _ _ _ _ hq hne]⟩
  case rising =>
    have hg : (interrupt d pin IntMode.rising ⟨c, l, []⟩).2.chip.gpinten
        = assignBit c.gpinten pin true % 256 := rfl
    have hi : (interrupt d pin IntMode.rising ⟨c, l, []⟩).2.chip.intcon
        = assignBit c.intcon pin true % 256 := rfl
    have hd : (interrupt d pin IntMode.rising ⟨c, l, []⟩).2.chip.defval
        = assignBit c.defval pin false % 256 := rfl
    refine ⟨rfl, ?_, ?_, fun h => IntMode.noConfusion h, fun _ => ?_,
            fun h => IntMode.noConfusion h, ?_⟩
    · rw [hg, testBit_mod256 _ _ hpin, testBit_assignBit_self _ _ _ hpin]
    · rw [hi, testBit_mod256 _ _ hpin, testBit_assignBit_self _ _ _ hpin]
      decide
    · rw [hd, testBit_mod256 _ _ hpin, testBit_assignBit_self _ _ _ hpin]
    · intro q hq hne
      exact ⟨by rw [hi, testBit_mod256 _ _ hq, testBit_assignBit_of_ne _ _ _ _ hq hne],
             by rw [hd, testBit_mod256 _ _ hq, testBit_assignBit_of_ne _ _ _ _ hq hne],
             by rw [hg, testBit_mod256 _ _ hq, testBit_assignBit_of_ne _ _ _ _ hq hne]⟩
  case falling =>
    have hg : (interrupt d pin IntMode.falling ⟨c, l, []⟩).2.chip.gpinten
        = assignBit c.gpinten pin true % 256 := rfl
    have hi : (interrupt d pin IntMode.falling ⟨c, l, []⟩).2.chip.intcon
        = assignBit c.intcon pin true % 256 := rfl
    have hd : (interrupt d pin IntMode.falling ⟨c, l, []⟩).2.chip.defval
        = assignBit c.defval pin true % 256 := rfl
    refine ⟨rfl, ?_, ?_, fun h => IntMode.noConfusion h,
            fun h => IntMode.noConfusion h, fun _ => ?_, ?_⟩
    · rw [hg, testBit_mod256 _ _ hpin, testBit_assignBit_self _ _ _ hpin]
    · rw [hi, testBit_mod256 _ _ hpin, testBit_assignBit_self _ _ _ hpin]
      decide
    · rw [hd, testBit_mod256 _ _ hpin, testBit_assignBit_self _ _ _ hpin]
    · intro q hq hne
      exact ⟨by rw [hi, testBit_mod256 _ _ hq, testBit_assignBit_of_ne _ _ _ _ hq hne],
             by rw [hd, testBit_mod256 _ _ hq, testBit_assignBit_of_ne _ _ _ _ hq hne],
             by rw [hg, testBit_mod256 _ _ hq, testBit_assignBit_of_ne _ _ _ _ hq hne]⟩

theorem interrupt_mode_encoding_witness :
    2 < 8 ∧
    ((interrupt devA 2 .rising ⟨chipZero, [], []⟩).1 = .ok () ∧
     (interrupt devA 2 .rising ⟨chipZero, [], []⟩).2.chip.gpinten.testBit 2 = true ∧
     (interrupt devA 2 .rising ⟨chipZero, [], []⟩).2.chip.intcon.testBit 2
       = (IntMode.rising != IntMode.change) ∧
     (IntMode.rising = IntMode.change →
       (interrupt devA 2 .rising ⟨chipZero, [], []⟩).2.chip.defval = chipZero.defval) ∧
     (IntMode.rising = IntMode.rising →
       (interrupt devA 2 .rising ⟨chipZero, [], []⟩).2.chip.defval.testBit 2 = false) ∧
     (IntMode.rising = IntMode.falling →
       (interrupt devA 2 .rising ⟨chipZero, [], []⟩).2.chip.defval.testBit 2 = true) ∧
     (∀ q, q < 8 → q ≠ 2 →
       (interrupt devA 2 .rising ⟨chipZero, [], []⟩).2.chip.intcon.testBit q
         = chipZero.intcon.testBit q ∧
       (interrupt devA 2 .rising ⟨chipZero, [], []⟩).2.chip.defval.testBit q
         = chipZero.defval.testBit q ∧
       (interrupt devA 2 .rising ⟨chipZero, [], []⟩).2.chip.gpinten.testBit q
         = chipZero.gpinten.testBit q)) :=
  ⟨by decide, interrupt_mode_encoding devA 2 .rising chipZero [] (by decide)⟩

/-- Claim C4: every core operation that touches the bus propagates a
TransportError from a failed bus primitive to the caller immediately and
verbatim, with no retry and no rollback: whichever primitive of the call
fails, the call returns the error, exactly one fault-schedule entry is
consumed at the failing primitive (no retry), the writes already performed
stay in the log and on the chip (no rollback), and from the failing
primitive on no further byte is sent (the log does not grow past the
successful prefix).  Stated for every operation - begin/init, the
port/pin/register reads and writes, and the whole interrupt subsystem -
and for every primitive position within each call. -/
theorem transport_error_propagation :
    (∀ (d : MCP23008) (r : MCP23008Register) (c : Chip) (l : List (Nat × Nat × Nat))
        (fs : List Bool),
      readRegister d r ⟨c, l, true :: fs⟩ = (.error .busError, ⟨c, l, fs⟩)) ∧
    (∀ (d : MCP23008) (r : MCP23008Register) (v : Nat) (c : Chip)
        (l : List (Nat × Nat × Nat)) (fs : List Bool),
      writeRegister d r v ⟨c, l, true :: fs⟩ = (.error .busError, ⟨c, l, fs⟩)) ∧
    (∀ (d : MCP23008) (c : Chip) (l : List (Nat × Nat × Nat)) (fs : List Bool),
      readPort d ⟨c, l, true :: fs⟩ = (.error .busError, ⟨c, l, fs⟩)) ∧
    (∀ (d : MCP23008) (v : Nat) (c : Chip) (l : List (Nat × Nat × Nat)) (fs : List Bool),
      writePort d v ⟨c, l, true :: fs⟩ = (.error .busError, ⟨c, l, fs⟩)) ∧
    (∀ (d : MCP23008) (pin : Nat) (c : Chip) (l : List (Nat × Nat × Nat)) (fs : List Bool),
      digitalRead d pin ⟨c, l, true :: fs⟩ = (.error .busError, ⟨c, l, fs⟩)) ∧
    (∀ (d : MCP23008) (c : Chip) (l : List (Nat × Nat × Nat)) (fs : List Bool),
      interruptedBy d ⟨c, l, true :: fs⟩ = (.error .busError, ⟨c, l, fs⟩)) ∧
    (∀ (d : MCP23008) (c : Chip) (l : List (Nat × Nat × Nat)) (fs : List Bool),
      clearInterrupts d ⟨c, l, true :: fs⟩ = (.error .busError, ⟨c, l, fs⟩)) ∧
    (∀ (d : MCP23008) (c : Chip) (l : List (Nat × Nat × Nat)) (fs : List Bool),
      disableInterrupt d ⟨c, l, true :: fs⟩ = (.error .busError, ⟨c, l, fs⟩)) ∧
    (∀ (d : MCP23008) (pin st : Nat) (c : Chip) (l : List (Nat × Nat × Nat)) (fs : List Bool),
      digitalWrite d pin st ⟨c, l, true :: fs⟩ = (.error .busError, ⟨c, l, fs⟩)) ∧
    (∀ (d : MCP23008) (pin st : Nat) (c : Chip) (l : List (Nat × Nat × Nat)) (fs : List Bool),
      digitalWrite d pin st ⟨c, l, false :: true :: fs⟩ =
        (.error .busError, ⟨{ c with intf := 0 }, l, fs⟩)) ∧
    (∀ (d : MCP23008) (a b i : Nat) (c : Chip) (l : List (Nat × Nat × Nat)) (fs : List Bool),
      portMode d a b i ⟨c, l, true :: fs⟩ = (.error .busError, ⟨c, l, fs⟩)) ∧
    (∀ (d : MCP23008) (a b i : Nat) (c : Chip) (l : List (Nat × Nat × Nat)) (fs : List Bool),
      portMode d a b i ⟨c, l, false :: true :: fs⟩ =
        (.error .busError,
         ⟨{ c with iodir := a % 256 }, l ++ [(d.deviceAddr, 0x00, a % 256)], fs⟩)) ∧
    (∀ (d : MCP23008) (a b i : Nat) (c : Chip) (l : List (Nat × Nat × Nat)) (fs : List Bool),
      portMode d a b i ⟨c, l, false :: false :: true :: fs⟩ =
        (.error .busError,
         ⟨{ c with iodir := a % 256, gppu := b % 256 },
          (l ++ [(d.deviceAddr, 0x00, a % 256)]) ++ [(d.deviceAddr, 0x06, b % 256)], fs⟩)) ∧
    (∀ (d : MCP23008) (pin : Nat) (mode : PinModeArg) (inv : Bool) (c : Chip)
        (l : List (Nat × Nat × Nat)) (fs : List Bool),
      pinMode d pin mode inv ⟨c, l, true :: fs⟩ = (.error .busError, ⟨c, l, fs⟩)) ∧
    (∀ (d : MCP23008) (pin : Nat) (mode : PinModeArg) (inv : Bool) (c : Chip)
        (l : List (Nat × Nat × Nat)) (fs : List Bool),
      pinMode d pin mode inv ⟨c, l, false :: true :: fs⟩ = (.error .busError, ⟨c, l, fs⟩)) ∧
    (∀ (d : MCP23008) (pin : Nat) (mode : PinModeArg) (inv : Bool) (c : Chip)
        (l : List (Nat × Nat × Nat)) (fs : List Bool),
      pinMode d pin mode inv ⟨c, l, false :: false :: true :: fs⟩ =
        (.error .busError,
         ⟨{ c with iodir := assignBit c.iodir pin (xor (modeBit mode) inv) % 256 },
          l ++ [(d.deviceAddr, 0x00, assignBit c.iodir pin (xor (modeBit mode) inv) % 256)],
          fs⟩)) ∧
    (∀ (d : MCP23008) (pin : Nat) (mode : PinModeArg) (inv : Bool) (c : Chip)
        (l : List (Nat × Nat × Nat)) (fs : List Bool),
      pinMode d pin mode inv ⟨c, l, false :: false :: false :: true :: fs⟩ =
        (.error .busError,
         ⟨{ c with iodir := assignBit c.iodir pin (xor (modeBit mode) inv) % 256 },
          l ++ [(d.deviceAddr, 0x00, assignBit c.iodir pin (xor (modeBit mode) inv) % 256)],
          fs⟩)) ∧
    (∀ (d : MCP23008) (pin : Nat) (mode : IntMode) (c : Chip)
        (l : List (Nat × Nat × Nat)) (fs : List Bool),
      interrupt d pin mode ⟨c, l, true :: fs⟩ = (.error .busError, ⟨c, l, fs⟩)) ∧
    (∀ (d : MCP23008) (pin : Nat) (mode : IntMode) (c : Chip)
        (l : List (Nat × Nat × Nat)) (fs : List Bool),
      interrupt d pin mode ⟨c, l, false :: true :: fs⟩ = (.error .busError, ⟨c, l, fs⟩)) ∧
    (∀ (d : MCP23008) (pin : Nat) (c : Chip) (l : List (Nat × Nat × Nat)) (fs : List Bool),
      interrupt d pin .rising ⟨c, l, false :: false :: true :: fs⟩ =
        (.error .busError,
         ⟨{ c with intcon := assignBit c.intcon pin true % 256 },
          l ++ [(d.deviceAddr, 0x04, assignBit c.intcon pin true % 256)], fs⟩)) ∧
    (∀ (d : MCP23008) (pin : Nat) (c : Chip) (l : List (Nat × Nat × Nat)) (fs : List Bool),
      interrupt d pin .rising ⟨c, l, false :: false :: false :: true :: fs⟩ =
        (.error .busError,
         ⟨{ c with intcon := assignBit c.intcon pin true % 256 },
          l ++ [(d.deviceAddr, 0x04, assignBit c.intcon pin true % 256)], fs⟩)) ∧
    (∀ (d : MCP23008) (pin : Nat) (c : Chip) (l : List (Nat × Nat × Nat)) (fs : List Bool),
      interrupt d pin .rising ⟨c, l, false :: false :: false :: false :: true :: fs⟩ =
        (.error .busError,
         ⟨{ c with intcon := assignBit c.intcon pin true % 256,
                   defval := assignBit c.defval pin false % 256 },
          (l ++ [(d.deviceAddr, 0x04, assignBit c.intcon pin true % 256)]) ++
            [(d.deviceAddr, 0x03, assignBit c.defval pin false % 256)], fs⟩)) ∧
    (∀ (d : MCP23008) (pin : Nat) (c : Chip) (l : List (Nat × Nat × Nat)) (fs : List Bool),
      interrupt d pin .rising
          ⟨c, l, false :: false :: false :: false :: false :: true :: fs⟩ =
        (.error .busError,
         ⟨{ c with intcon := assignBit c.intcon pin true % 256,
                   defval := assignBit c.defval pin false % 256 },
          (l ++ [(d.deviceAddr, 0x04, assignBit c.intcon pin true % 256)]) ++
            [(d.deviceAddr, 0x03, assignBit c.defval pin false % 256)], fs⟩)) ∧
    (∀ (d : MCP23008) (pin : Nat) (c : Chip) (l : List (Nat × Nat × Nat)) (fs : List Bool),
      interrupt d pin .falling ⟨c, l, false :: false :: true :: fs⟩ =
        (.error .busError,
         ⟨{ c with intcon := assignBit c.intcon pin true % 256 },
          l ++ [(d.deviceAddr, 0x04, assignBit c.intcon pin true % 256)], fs⟩)) ∧
    (∀ (d : MCP23008) (pin : Nat) (c : Chip) (l : List (Nat × Nat × Nat)) (fs : List Bool),
      interrupt d pin .falling
          ⟨c, l, false :: false :: false :: false :: false :: true :: fs⟩ =
        (.error .busError,
         ⟨{ c with intcon := assignBit c.intcon pin true % 256,
                   defval := assignBit c.defval pin true % 256 },
          (l ++ [(d.deviceAddr, 0x04, assignBit c.intcon pin true % 256)]) ++
            [(d.deviceAddr, 0x03, assignBit c.defval pin true % 256)], fs⟩)) ∧
    (∀ (d : MCP23008) (pin : Nat) (c : Chip) (l : List (Nat × Nat × Nat)) (fs : List Bool),
      interrupt d pin .change ⟨c, l, false :: false :: true :: fs⟩ =
        (.error .busError,
         ⟨{ c with intcon := assignBit c.intcon pin false % 256 },
          l ++ [(d.deviceAddr, 0x04, assignBit c.intcon pin false % 256)], fs⟩)) ∧
    (∀ (d : MCP23008) (pin : Nat) (c : Chip) (l : List (Nat × Nat × Nat)) (fs : List Bool),
      interrupt d pin .change ⟨c, l, false :: false :: false :: true :: fs⟩ =
        (.error .busError,
         ⟨{ c with intcon := assignBit c.intcon pin false % 256 },
          l ++ [(d.deviceAddr, 0x04, assignBit c.intcon pin false % 256)], fs⟩)) ∧
    (∀ (d : MCP23008) (pin : Nat) (c : Chip) (l : List (Nat × Nat × Nat)) (fs : List Bool),
      interrupt d pin .falling ⟨c, l, false :: false :: false :: true :: fs⟩ =
        (.error .busError,
         ⟨{ c with intcon := assignBit c.intcon pin true % 256 },
          l ++ [(d.deviceAddr, 0x04, assignBit c.intcon pin true % 256)], fs⟩)) ∧
    (∀ (d : MCP23008) (pin : Nat) (c : Chip) (l : List (Nat × Nat × Nat)) (fs : List Bool),
      interrupt d pin .falling ⟨c, l, false :: false :: false :: false :: true :: fs⟩ =
        (.error .busError,
         ⟨{ c with intcon := assignBit c.intcon pin true % 256,
                   defval := assignBit c.defval pin true % 256 },
          (l ++ [(d.deviceAddr, 0x04, assignBit c.intcon pin true % 256)]) ++
            [(d.deviceAddr, 0x03, assignBit c.defval pin true % 256)], fs⟩)) ∧
    (∀ (d : MCP23008) (c : Chip) (l : List (Nat × Nat × Nat)) (fs : List Bool),
      init d ⟨c, l, true :: fs⟩ = (.error .busError, ⟨c, l, fs⟩)) ∧
    (∀ (d : MCP23008) (c : Chip) (l : List (Nat × Nat × Nat)) (fs : List Bool),
      init d ⟨c, l, false :: true :: fs⟩ =
        (.error .busError,
         ⟨{ c with iocon := 0x20 }, l ++ [(d.deviceAddr, 0x05, 0x20)], fs⟩)) ∧
    (∀ (d : MCP23008) (c : Chip) (l : List (Nat × Nat × Nat)) (fs : List Bool),
      begin d ⟨c, l, true :: fs⟩ = (.error .busError, ⟨c, l, fs⟩)) ∧
    (∀ (d : MCP23008) (c : Chip) (l : List (Nat × Nat × Nat)) (fs : List Bool),
      begin d ⟨c, l, false :: true :: fs⟩ =
        (.error .busError,
         ⟨{ c with iocon := 0x20 }, l ++ [(d.deviceAddr, 0x05, 0x20)], fs⟩)) := by
  repeat' apply And.intro
  all_goals intros
  all_goals rfl
